import Mathlib

/-!
Verification of the quiz-authoring / quiz-taking application (quizzpp).

Shallow embedding of the client-side logic:
  * `Question`, `ResponseRow` mirror the records in `types/database.ts`.
  * Authoring mutations (`removeQuestion`, `moveQuestion`, `removeOptionCreate`,
    `removeOptionEdit`, `updateOptionCreate`, `updateOptionEdit`, `validateForm`)
    are translated from `CreateQuiz.tsx` / `EditQuiz.tsx`.
  * Quiz taking (`calculateScore`, `handleSubmit`) from `TakeQuiz.tsx`.
  * Results aggregation (`calculateStats`, `exportToCSV`) from `QuizResults.tsx`.

JavaScript numbers are modelled by ℚ (all the arithmetic involved is exact on
the small rationals that occur), `Math.round` by round-half-up on ℚ, and
out-of-range array reads (`a[i]` giving `undefined`) by `Option`.
-/

namespace Quizzpp

/-- Model of the `Question` row from `types/database.ts` (create flow omits `id`/`quiz_id`;
we keep the full record, unused fields are simply ignored there). -/
structure Question where
  id : String
  quiz_id : String
  question_text : String
  options : List String
  correct_answer : String
  order_index : Nat
deriving DecidableEq

/-- Model of the `Response` row from `types/database.ts` (`submitted_at` kept as opaque text). -/
structure ResponseRow where
  id : String
  quiz_id : String
  student_name : String
  student_email : String
  student_register_number : String
  answers : List String
  score : Nat
  total_questions : Nat
  submitted_at : String
deriving DecidableEq

/-- JavaScript `Math.round`: round half up (toward +∞), exact on ℚ. -/
def jsRound (x : ℚ) : ℤ := ⌊x + 1/2⌋

/-- JavaScript `String.prototype.trim`: drop leading and trailing whitespace,
modelled directly on the underlying character list. -/
def jsTrim (s : String) : String :=
  String.mk (((s.data.dropWhile Char.isWhitespace).reverse.dropWhile Char.isWhitespace).reverse)

/-- JavaScript `String.prototype.startsWith`, on the underlying character lists. -/
def jsStartsWith (s p : String) : Bool := p.data.isPrefixOf s.data

/-- Helper for `.map((q, i) => ({ ...q, order_index: i }))`, starting from index `n`. -/
def reindexFrom : Nat → List Question → List Question
  | _, [] => []
  | n, q :: qs => { q with order_index := n } :: reindexFrom (n + 1) qs

/-- Re-sequencing `order_index` to the array position, as done after every
question removal or move in `CreateQuiz.tsx` / `EditQuiz.tsx`. -/
def reindex (qs : List Question) : List Question := reindexFrom 0 qs

/-- Model of `removeQuestion` of `CreateQuiz.tsx` (ll. 39-43; `EditQuiz.tsx` performs
the same list update): no-op when a single question remains, otherwise
`filter((_, i) => i !== index)` followed by re-sequencing. -/
def removeQuestion (qs : List Question) (index : Nat) : List Question :=
  if qs.length = 1 then qs
  else reindex (qs.eraseIdx index)

inductive Direction where
  | up
  | down
deriving DecidableEq

/-- Model of `moveQuestion` of `CreateQuiz.tsx` ll. 45-53 (identical in `EditQuiz.tsx`):
computes the neighbour index as a JavaScript number (so `0 - 1 = -1`), no-op
when it falls outside the array, otherwise swaps and re-sequences. -/
def moveQuestion (qs : List Question) (index : Nat) (dir : Direction) : List Question :=
  let newIndex : ℤ := if dir = Direction.up then (index : ℤ) - 1 else (index : ℤ) + 1
  if newIndex < 0 ∨ (qs.length : ℤ) ≤ newIndex then qs
  else
    match qs.get? index, qs.get? newIndex.toNat with
    | some a, some b => reindex ((qs.set index b).set newIndex.toNat a)
    | _, _ => qs

/-- Model of `removeOption` of `CreateQuiz.tsx` ll. 68-77.  `newQuestions = [...questions]`
is a shallow copy, so `newQuestions[qi]` and `questions[qi]` alias the same
object and `splice` mutates the shared `options` array; the subsequent guard
`newQuestions[qi].correct_answer === questions[qi].options[oi]` therefore reads
the *post-splice* array: it compares against the option that moved into
position `oi` (or `undefined` when `oi` was the last position). -/
def removeOptionCreate (qs : List Question) (qi oi : Nat) : List Question :=
  match qs.get? qi with
  | none => qs
  | some q =>
      if q.options.length ≤ 2 then qs
      else
        let newOptions := q.options.eraseIdx oi
        let newCorrect :=
          match newOptions.get? oi with
          | some v => if q.correct_answer = v then "" else q.correct_answer
          | none => q.correct_answer
        qs.set qi { q with options := newOptions, correct_answer := newCorrect }

/-- Model of `removeOption` of `EditQuiz.tsx` ll. 115-126: captures `removedOption`
*before* the splice, clears `correct_answer` exactly when it equalled the
removed option. -/
def removeOptionEdit (qs : List Question) (qi oi : Nat) : List Question :=
  match qs.get? qi with
  | none => qs
  | some q =>
      if q.options.length ≤ 2 then qs
      else
        match q.options.get? oi with
        | none => qs.set qi { q with options := q.options.eraseIdx oi }
        | some removed =>
            qs.set qi
              { q with
                options := q.options.eraseIdx oi,
                correct_answer := if q.correct_answer = removed then "" else q.correct_answer }

/-- Model of `updateOption` of `CreateQuiz.tsx` ll. 79-83: replaces the option text,
leaves `correct_answer` untouched. -/
def updateOptionCreate (qs : List Question) (qi oi : Nat) (value : String) : List Question :=
  match qs.get? qi with
  | none => qs
  | some q => qs.set qi { q with options := q.options.set oi value }

/-- Model of `updateOption` of `EditQuiz.tsx` ll. 128-138: replaces the option text and
migrates `correct_answer` to the new text when it equalled the old text. -/
def updateOptionEdit (qs : List Question) (qi oi : Nat) (value : String) : List Question :=
  match qs.get? qi with
  | none => qs
  | some q =>
      match q.options.get? oi with
      | none => qs.set qi { q with options := q.options.set oi value }
      | some oldValue =>
          qs.set qi
            { q with
              options := q.options.set oi value,
              correct_answer := if q.correct_answer = oldValue then value else q.correct_answer }

/-- The distinct validation failures reported by `validateForm` (one per
`alert` message in the source, tagged with the 0-based question index). -/
inductive VError where
  | emptyTitle
  | emptyQuestionText (i : Nat)
  | emptyOption (i : Nat)
  | emptyCorrect (i : Nat)
  | correctNotOption (i : Nat)
deriving DecidableEq

/-- The question-scanning loop of `validateForm` (`CreateQuiz.tsx` ll. 91-113,
identical in `EditQuiz.tsx`): for each question, in position order, checks text,
options, correct answer non-empty, then membership, returning the first failure. -/
def validateQuestions : Nat → List Question → Option VError
  | _, [] => none
  | i, q :: rest =>
      if jsTrim q.question_text = "" then some (VError.emptyQuestionText i)
      else if q.options.any (fun o => jsTrim o = "") then some (VError.emptyOption i)
      else if jsTrim q.correct_answer = "" then some (VError.emptyCorrect i)
      else if ¬ q.options.contains q.correct_answer then some (VError.correctNotOption i)
      else validateQuestions (i + 1) rest

/-- Model of `validateForm` of `CreateQuiz.tsx` ll. 85-116 (identical in `EditQuiz.tsx`):
title first, then the per-question scan; `none` means the form is valid. -/
def validateForm (title : String) (qs : List Question) : Option VError :=
  if jsTrim title = "" then some VError.emptyTitle
  else validateQuestions 0 qs

/-- First failing rule, in rule order (b)-(e), of a single question. -/
def firstQuestionError (i : Nat) (q : Question) : Option VError :=
  if jsTrim q.question_text = "" then some (VError.emptyQuestionText i)
  else if q.options.any (fun o => jsTrim o = "") then some (VError.emptyOption i)
  else if jsTrim q.correct_answer = "" then some (VError.emptyCorrect i)
  else if ¬ q.options.contains q.correct_answer then some (VError.correctNotOption i)
  else none

/-- Question-major reading of the validation order: title first, then the
questions are scanned in position order and the earliest-positioned failing
question reports its earliest-lettered failing rule. -/
def validateFormQuestionMajor (title : String) (qs : List Question) : Option VError :=
  if jsTrim title = "" then some VError.emptyTitle
  else (qs.enum).findSome? fun p => firstQuestionError p.1 p.2

/-- Model of `calculateScore` of `TakeQuiz.tsx` ll. 77-85: counts the indices
`i < questions.length` at which `answers[i] === questions[i].correct_answer`
(strict string equality; an out-of-range `answers[i]` is `undefined` and never
equal to a string). -/
def calculateScore (qs : List Question) (answers : List String) : Nat :=
  (List.range qs.length).countP fun i =>
    match qs.get? i, answers.get? i with
    | some q, some a => a = q.correct_answer
    | _, _ => false

/-- The local state of the quiz-taking page (`TakeQuiz.tsx`), restricted to the
fields `handleSubmit` reads and writes. -/
structure TakeState where
  quizId : String
  questions : List Question
  answers : List String
  studentName : String
  studentEmail : String
  score : Nat
  submitted : Bool
  showResults : Bool
deriving DecidableEq

/-- The `responses` insert payload built by `handleSubmit` (`TakeQuiz.tsx`
ll. 102-111).  Note: the source object literal has exactly these six fields —
`student_register_number` is **not** among them. -/
structure SubmitPayload where
  quiz_id : String
  student_name : String
  student_email : String
  answers : List String
  score : Nat
  total_questions : Nat
deriving DecidableEq

/-- The field names of the object literal inserted into `responses` by
`handleSubmit` (`TakeQuiz.tsx` ll. 104-111), in source order. -/
def takeQuizInsertFields : List String :=
  ["quiz_id", "student_name", "student_email", "answers", "score", "total_questions"]

/-- The fields the `responses` Insert type of `types/database.ts` declares as
required (those without `?`; `id` and `submitted_at` are optional/defaulted),
matching the `NOT NULL` columns of the migration in the repository. -/
def responsesRequiredInsertFields : List String :=
  ["quiz_id", "student_name", "student_email", "student_register_number",
   "answers", "score", "total_questions"]

/-- Model of `handleSubmit` of `TakeQuiz.tsx` ll. 87-124 (success path of the insert):
rejects — leaving the state unchanged and inserting nothing — when a student
field trims to empty or any answer trims to empty; otherwise inserts one
payload and enters the results state. -/
def handleSubmit (s : TakeState) : TakeState × Option SubmitPayload :=
  if jsTrim s.studentName = "" ∨ jsTrim s.studentEmail = "" then (s, none)
  else if s.answers.any (fun a => jsTrim a = "") then (s, none)
  else
    let calculatedScore := calculateScore s.questions s.answers
    ({ s with score := calculatedScore, submitted := true, showResults := true },
     some
       { quiz_id := s.quizId
         student_name := jsTrim s.studentName
         student_email := jsTrim s.studentEmail
         answers := s.answers
         score := calculatedScore
         total_questions := s.questions.length })

/-- Result record of `calculateStats` (`QuizResults.tsx` ll. 64-78). -/
structure Stats where
  averageScore : ℚ
  totalResponses : Nat
  averagePercentage : ℤ
deriving DecidableEq

/-- Model of `calculateStats` of `QuizResults.tsx` ll. 64-78, abstracted over the list
of response scores: zeros when there are no responses; otherwise the mean score
rounded to one decimal, the count, and `Math.round` of the *unrounded* mean
divided by the current question count, times 100. -/
def calculateStats (scores : List Nat) (questionCount : Nat) : Stats :=
  if scores.length = 0 then ⟨0, 0, 0⟩
  else
    let averageScore : ℚ := (scores.sum : ℚ) / (scores.length : ℚ)
    let averagePercentage : ℚ := averageScore / (questionCount : ℚ) * 100
    ⟨(jsRound (averageScore * 10) : ℚ) / 10, scores.length, jsRound averagePercentage⟩

/-- One data row of the CSV export (`QuizResults.tsx` ll. 95-105): name, email,
score, per-response percentage, formatted timestamp, then the raw answers.
`fmt` stands for `new Date(_).toLocaleString()`, a locale-dependent formatter
the claim's content does not depend on. -/
def responseRow (fmt : String → String) (r : ResponseRow) : List String :=
  let percentage := jsRound ((r.score : ℚ) / (r.total_questions : ℚ) * 100)
  [r.student_name, r.student_email, toString r.score, toString percentage ++ "%",
   fmt r.submitted_at] ++ r.answers

/-- The CSV header cells (`QuizResults.tsx` ll. 86-93). -/
def csvHeaders (qs : List Question) : List String :=
  ["Student Name", "Email", "Score", "Percentage", "Submitted At"] ++
    (List.range qs.length).map (fun i => "Question " ++ toString (i + 1))

/-- Model of `exportToCSV` of `QuizResults.tsx` ll. 80-121 (the generated text; the
empty-response guard returns no file): unquoted header cells joined by commas,
then one row per response with every cell wrapped — unescaped — in double
quotes, rows joined by newlines. -/
def exportToCSV (fmt : String → String) (qs : List Question) (rs : List ResponseRow) :
    Option String :=
  if rs.length = 0 then none
  else
    let headers := csvHeaders qs
    let rows := rs.map (responseRow fmt)
    some (String.intercalate "\n"
      (String.intercalate "," headers ::
        rows.map (fun row => String.intercalate "," (row.map (fun cell => "\"" ++ cell ++ "\"")))))

/-- A write issued against the remote data store. -/
inductive DbEffect where
  | deleteQuestionById (id : String)
deriving DecidableEq

/-- Applying store writes to the `questions` collection. -/
def applyEffects (store : List Question) : List DbEffect → List Question
  | [] => store
  | DbEffect.deleteQuestionById i :: rest => applyEffects (store.filter fun r => r.id ≠ i) rest

/-- Model of `removeQuestion` of `EditQuiz.tsx` ll. 73-90 (success path of the delete):
no-op when a single question remains; otherwise, when the question's id is not
a client-generated `temp-` id, a delete of that row is issued to the store
immediately, then the local list is filtered and re-sequenced. -/
def removeQuestionEdit (qs : List Question) (index : Nat) : List Question × List DbEffect :=
  if qs.length = 1 then (qs, [])
  else
    match qs.get? index with
    | none => (qs, [])
    | some q =>
        let effects :=
          if jsStartsWith q.id "temp-" then [] else [DbEffect.deleteQuestionById q.id]
        (reindex (qs.eraseIdx index), effects)

/-- Concrete two-question quiz used to evaluate the quiz-taking engine
(the first question expects "A", the second expects "B"). -/
def exampleQuestions : List Question :=
  [⟨"qa", "z", "Q1", ["A", "B"], "A", 0⟩, ⟨"qb", "z", "Q2", ["B", "C"], "B", 1⟩]

/-- Concrete quiz-taking state over `exampleQuestions` with answers
`["A", "C"]` (first correct, second wrong) and both student fields filled. -/
def exampleTakeState : TakeState :=
  ⟨"z", exampleQuestions, ["A", "C"], "Jane", "jane@x.com", 0, false, false⟩

/-- Concrete quiz-taking state with the second question unanswered. -/
def incompleteTakeState : TakeState :=
  ⟨"z", exampleQuestions, ["A", ""], "Jane", "jane@x.com", 0, false, false⟩

/-- Concrete authoring list whose `order_index` values are deliberately
non-contiguous, to exercise the re-sequencing operations. -/
def scrambledQuestions : List Question :=
  [⟨"qa", "z", "Q1", ["A", "B"], "A", 5⟩, ⟨"qb", "z", "Q2", ["B", "C"], "B", 9⟩,
   ⟨"qc", "z", "Q3", ["C", "D"], "C", 7⟩]

/-- Concrete edit-flow list holding one persisted question (store id) and one
client-side question (temporary id). -/
def persistedQuestions : List Question :=
  [⟨"real-1", "z", "Q1", ["A", "B"], "A", 0⟩, ⟨"temp-2", "z", "Q2", ["B", "C"], "B", 1⟩]

/-! Helper lemmas about re-sequencing. -/

theorem reindexFrom_length (l : List Question) : ∀ n, (reindexFrom n l).length = l.length := by
  induction l with
  | nil => intro n; rfl
  | cons q rest ih => intro n; simp [reindexFrom, ih]

theorem reindexFrom_map_orderIndex (l : List Question) :
    ∀ n, (reindexFrom n l).map Question.order_index = List.range' n l.length := by
  induction l with
  | nil => intro n; rfl
  | cons q rest ih => intro n; simp [reindexFrom, ih, List.range'_succ]

theorem reindex_contiguous (l : List Question) :
    (reindex l).map Question.order_index = List.range (reindex l).length := by
  rw [reindex, reindexFrom_map_orderIndex, reindexFrom_length, List.range_eq_range']

/-! Helper lemmas about validation and scoring. -/

theorem validateQuestions_eq_findSome (qs : List Question) : ∀ n : Nat,
    validateQuestions n qs = (List.enumFrom n qs).findSome? fun p => firstQuestionError p.1 p.2 := by
  induction qs with
  | nil => intro n; rfl
  | cons q rest ih =>
      intro n
      rw [List.enumFrom_cons, List.findSome?_cons]
      show validateQuestions n (q :: rest) = _
      rw [validateQuestions, firstQuestionError]
      split_ifs <;> simp [ih]

theorem calculateScore_eq_zip_countP (qs : List Question) :
    ∀ answers : List String, answers.length = qs.length →
      calculateScore qs answers =
        (qs.zip answers).countP fun p => decide (p.2 = p.1.correct_answer) := by
  induction qs with
  | nil => intro answers _; rfl
  | cons q rest ih =>
      intro answers h
      cases answers with
      | nil => simp at h
      | cons a as =>
          simp only [List.length_cons, Nat.succ.injEq] at h
          rw [List.zip_cons_cons, List.countP_cons]
          rw [calculateScore, List.length_cons, List.range_succ_eq_map, List.countP_cons,
            List.countP_map]
          rw [← ih as h, calculateScore]
          have hfun :
              List.countP
                ((fun i =>
                    match (q :: rest).get? i, (a :: as).get? i with
                    | some q, some a => decide (a = q.correct_answer)
                    | _, _ => false) ∘ Nat.succ)
                (List.range rest.length) =
              List.countP
                (fun i =>
                    match rest.get? i, as.get? i with
                    | some q, some a => decide (a = q.correct_answer)
                    | _, _ => false)
                (List.range rest.length) := by
            apply List.countP_congr
            intro i _
            rfl
          rw [hfun]
          rfl

/-- Claim C1, divergence of the create flow at a concrete input: with options
`["A", "B", "C"]` and `correct_answer = "A"`, removing option 0 leaves
`correct_answer = "A"` even though `"A"` is no longer among the options —
because the guard compares against the post-splice array, contradicting the
inline source comment "Clear correct answer if it was the removed option".
The edit flow at the same input clears the correct answer, as the claim states. -/
theorem removeOption_create_keeps_stale_answer :
    removeOptionCreate [⟨"q1", "z", "t", ["A", "B", "C"], "A", 0⟩] 0 0 =
      [⟨"q1", "z", "t", ["B", "C"], "A", 0⟩] ∧
    "A" ∉ (["B", "C"] : List String) ∧
    removeOptionEdit [⟨"q1", "z", "t", ["A", "B", "C"], "A", 0⟩] 0 0 =
      [⟨"q1", "z", "t", ["B", "C"], "", 0⟩] := by
  decide

/-- Claim C2, divergence at the insert: the object literal inserted into
`responses` by `handleSubmit` of `TakeQuiz.tsx` omits `student_register_number`,
although the Insert type of `types/database.ts` (and the NOT NULL column of the
schema) requires that field on every Response row. -/
theorem submit_insert_omits_register_number :
    "student_register_number" ∈ responsesRequiredInsertFields ∧
    "student_register_number" ∉ takeQuizInsertFields := by
  decide

/-- Claim C3, counterexample: for scores `[1, 0, 0]` and `questionCount = 1`
the code returns `averagePercentage = 33` (computed from the unrounded mean
`1/3`), while the claim, which derives it from the one-decimal-rounded
`averageScore = 0.3`, would require `30`. -/
theorem calculateStats_percentage_unrounded_cex :
    (calculateStats [1, 0, 0] 1).averagePercentage = 33 ∧
    jsRound ((calculateStats [1, 0, 0] 1).averageScore / ((1 : Nat) : ℚ) * 100) = 30 ∧
    (33 : ℤ) ≠ 30 := by
  have h3 : jsRound (((1 : ℚ) + (0 + (0 + 0))) / 3 * 10) = 3 := by
    rw [jsRound, Int.floor_eq_iff]
    norm_num
  refine ⟨?_, ?_, by decide⟩
  · norm_num [calculateStats, jsRound, Int.floor_eq_iff]
  · norm_num [calculateStats, h3, jsRound, Int.floor_eq_iff]

/-- Claim C3 as amended: `calculateStats` returns zeros on an empty score
list; on a non-empty list it returns the mean rounded to one decimal as
`averageScore`, the response count, and — computed from the *unrounded* mean,
not from the rounded `averageScore` — `averagePercentage` equal to
round-half-up of `mean / questionCount * 100`. -/
theorem calculateStats_amended (scores : List Nat) (questionCount : Nat)
    (hq : 0 < questionCount) :
    calculateStats [] questionCount = ⟨0, 0, 0⟩ ∧
    (scores ≠ [] →
      (calculateStats scores questionCount).averageScore =
        (jsRound ((scores.sum : ℚ) / (scores.length : ℚ) * 10) : ℚ) / 10 ∧
      (calculateStats scores questionCount).totalResponses = scores.length ∧
      (calculateStats scores questionCount).averagePercentage =
        jsRound ((scores.sum : ℚ) / (scores.length : ℚ) / (questionCount : ℚ) * 100)) := by
  constructor
  · rfl
  · intro h
    have hlen : ¬ scores.length = 0 := by simpa using h
    unfold calculateStats
    rw [if_neg hlen]
    exact ⟨rfl, rfl, rfl⟩

/-- Witness for `calculateStats_amended` at the worked example of the
specification: scores `[3, 1, 2]` with three questions. -/
theorem calculateStats_amended_witness :
    0 < 3 ∧
    (calculateStats [] 3 = ⟨0, 0, 0⟩ ∧
      (([3, 1, 2] : List Nat) ≠ [] →
        (calculateStats [3, 1, 2] 3).averageScore =
          (jsRound ((([3, 1, 2] : List Nat).sum : ℚ) / (([3, 1, 2] : List Nat).length : ℚ) * 10) : ℚ) / 10 ∧
        (calculateStats [3, 1, 2] 3).totalResponses = ([3, 1, 2] : List Nat).length ∧
        (calculateStats [3, 1, 2] 3).averagePercentage =
          jsRound ((([3, 1, 2] : List Nat).sum : ℚ) / (([3, 1, 2] : List Nat).length : ℚ) / ((3 : Nat) : ℚ) * 100))) :=
  ⟨by decide, calculateStats_amended [3, 1, 2] 3 (by decide)⟩

/-- Claim C4, counterexample: question 0 has non-empty text but an empty
option (rule c only), question 1 has empty text (rule b).  The code reports
the empty option of question 0 — question-major order — whereas the claim, in
rule-major order, would require the empty text of question 1 to be reported. -/
theorem validateForm_question_major_cex :
    validateForm "T" [⟨"a", "z", "T0", ["", "B"], "B", 0⟩, ⟨"b", "z", "", ["X", "Y"], "X", 1⟩]
      = some (VError.emptyOption 0) ∧
    jsTrim "T0" ≠ "" ∧
    jsTrim "" = "" ∧
    VError.emptyOption 0 ≠ VError.emptyQuestionText 1 := by
  decide

/-- Claim C4 as amended: `validateForm` checks the title first and then scans
the questions in position order, checking rules (b)-(e) in order within each
question; the reported failure is the first one in this question-major
traversal — so the earliest-positioned failing question wins, reporting its
earliest-lettered violated rule. -/
theorem validateForm_eq_question_major (title : String) (qs : List Question) :
    validateForm title qs = validateFormQuestionMajor title qs := by
  rw [validateForm, validateFormQuestionMajor, List.enum]
  split_ifs with h
  · rfl
  · exact validateQuestions_eq_findSome qs 0

/-- Claim C5: for answer and question lists of equal length, the score of
`TakeQuiz.tsx` counts exactly the positions whose answer equals that
question's `correct_answer` under case-sensitive, untrimmed string equality,
and the inserted Response payload carries that score together with
`total_questions` equal to the number of questions. -/
theorem calculateScore_spec (s : TakeState) (h : s.answers.length = s.questions.length) :
    calculateScore s.questions s.answers =
      (s.questions.zip s.answers).countP (fun p => decide (p.2 = p.1.correct_answer)) ∧
    ((handleSubmit s).2 = none ∨
      (handleSubmit s).2 = some
        { quiz_id := s.quizId
          student_name := jsTrim s.studentName
          student_email := jsTrim s.studentEmail
          answers := s.answers
          score := (s.questions.zip s.answers).countP fun p => decide (p.2 = p.1.correct_answer)
          total_questions := s.questions.length }) := by
  have hmain := calculateScore_eq_zip_countP s.questions s.answers h
  refine ⟨hmain, ?_⟩
  unfold handleSubmit
  split_ifs
  · exact Or.inl rfl
  · exact Or.inl rfl
  · right
    rw [← hmain]

/-- Witness for `calculateScore_spec` at the worked example of the
specification: correct answers `["A", "B"]`, given answers `["A", "C"]`,
score 1. -/
theorem calculateScore_spec_witness :
    exampleTakeState.answers.length = exampleTakeState.questions.length ∧
    (calculateScore exampleTakeState.questions exampleTakeState.answers =
        (exampleTakeState.questions.zip exampleTakeState.answers).countP
          (fun p => decide (p.2 = p.1.correct_answer)) ∧
      ((handleSubmit exampleTakeState).2 = none ∨
        (handleSubmit exampleTakeState).2 = some
          { quiz_id := exampleTakeState.quizId
            student_name := jsTrim exampleTakeState.studentName
            student_email := jsTrim exampleTakeState.studentEmail
            answers := exampleTakeState.answers
            score := (exampleTakeState.questions.zip exampleTakeState.answers).countP
              fun p => decide (p.2 = p.1.correct_answer)
            total_questions := exampleTakeState.questions.length })) ∧
    calculateScore exampleTakeState.questions exampleTakeState.answers = 1 :=
  ⟨by decide, calculateScore_spec exampleTakeState (by decide), by decide⟩

/-- Claim C6: `handleSubmit` with an unanswered question (an empty answer
entry) or an empty student name or email is rejected — the state is unchanged
and no Response is inserted; dually, if the terminal results state is entered
by `handleSubmit`, every answer entry and both student fields were non-empty. -/
theorem submit_guard_spec (s : TakeState) :
    ((∃ a ∈ s.answers, a = "") ∨ s.studentName = "" ∨ s.studentEmail = "" →
      handleSubmit s = (s, none)) ∧
    ((handleSubmit s).1.showResults = true →
      s.showResults = true ∨
        ((∀ a ∈ s.answers, a ≠ "") ∧ s.studentName ≠ "" ∧ s.studentEmail ≠ "")) := by
  unfold handleSubmit
  split_ifs with h1 h2
  · exact ⟨fun _ => rfl, fun h => Or.inl h⟩
  · exact ⟨fun _ => rfl, fun h => Or.inl h⟩
  · constructor
    · rintro (⟨a, ha, hae⟩ | hn | he)
      · cases hae
        exact absurd (List.any_eq_true.mpr ⟨"", ha, by decide⟩) h2
      · exact absurd (Or.inl (by rw [hn]; rfl)) h1
      · exact absurd (Or.inr (by rw [he]; rfl)) h1
    · intro _
      right
      refine ⟨?_, ?_, ?_⟩
      · intro a ha hae
        cases hae
        exact h2 (List.any_eq_true.mpr ⟨"", ha, by decide⟩)
      · intro hn
        exact h1 (Or.inl (by rw [hn]; rfl))
      · intro he
        exact h1 (Or.inr (by rw [he]; rfl))

/-- Witness for `submit_guard_spec`: a submission with the second question
unanswered is rejected and inserts nothing. -/
theorem submit_guard_spec_witness :
    handleSubmit incompleteTakeState = (incompleteTakeState, none) :=
  (submit_guard_spec incompleteTakeState).1 (Or.inl ⟨"", by decide, rfl⟩)

/-- Claim C7: over a non-empty response list, `exportToCSV` yields the header
row `Student Name, Email, Score, Percentage, Submitted At, Question 1..N`
(unquoted, comma-joined) followed, in input order, by one row per response
whose every data cell is wrapped verbatim in double quotes — with no escaping
of quotes inside a cell, as the concrete `Jane "JJ" Doe` export shows. -/
theorem exportToCSV_spec (fmt : String → String) (qs : List Question) (r : ResponseRow)
    (rest : List ResponseRow) :
    exportToCSV fmt qs (r :: rest) =
      some (String.intercalate "\n"
        (String.intercalate ","
            (["Student Name", "Email", "Score", "Percentage", "Submitted At"] ++
              (List.range qs.length).map fun i => "Question " ++ toString (i + 1)) ::
          (r :: rest).map fun resp =>
            String.intercalate ","
              ((([resp.student_name, resp.student_email, toString resp.score,
                  toString (jsRound ((resp.score : ℚ) / (resp.total_questions : ℚ) * 100)) ++ "%",
                  fmt resp.submitted_at] ++ resp.answers).map
                fun cell => "\"" ++ cell ++ "\"")))) ∧
    exportToCSV (fun d => d) [⟨"qa", "z", "Q", ["A", "B"], "A", 0⟩]
        [⟨"r1", "z", "Jane \"JJ\" Doe", "jane@x.com", "", ["A"], 1, 1, "2024-01-01"⟩] =
      some ("Student Name,Email,Score,Percentage,Submitted At,Question 1\n" ++
        "\"Jane \"JJ\" Doe\",\"jane@x.com\",\"1\",\"100%\",\"2024-01-01\",\"A\"") := by
  constructor
  · unfold exportToCSV
    rw [if_neg (by simp)]
    simp only [List.map_map]
    rfl
  · have h100 : jsRound (100 : ℚ) = 100 := by
      unfold jsRound
      rw [Int.floor_eq_iff]
      norm_num
    unfold exportToCSV
    rw [if_neg (by simp)]
    norm_num [responseRow, csvHeaders, h100]
    decide

/-- Claim C8: `removeQuestion` and `moveQuestion` re-sequence `order_index`
into the contiguous range `0..N-1` matching array position; `removeQuestion`
is a no-op when a single question remains and `moveQuestion` is a no-op when
the move would cross either end of the list. -/
theorem reorder_contiguous_order_index (qs : List Question) (index : Nat) (dir : Direction)
    (hidx : index < qs.length) :
    (qs.length = 1 → removeQuestion qs index = qs) ∧
    (qs.length ≠ 1 →
      (removeQuestion qs index).map Question.order_index =
        List.range (removeQuestion qs index).length) ∧
    ((dir = Direction.up ∧ index = 0) ∨ (dir = Direction.down ∧ index + 1 = qs.length) →
      moveQuestion qs index dir = qs) ∧
    (¬(dir = Direction.up ∧ index = 0) → ¬(dir = Direction.down ∧ index + 1 = qs.length) →
      (moveQuestion qs index dir).map Question.order_index =
        List.range (moveQuestion qs index dir).length) := by
  refine ⟨?_, ?_, ?_, ?_⟩
  · intro h; rw [removeQuestion, if_pos h]
  · intro h; rw [removeQuestion, if_neg h]; exact reindex_contiguous _
  · rintro (⟨hdir, hi⟩ | ⟨hdir, hi⟩) <;> subst hdir
    · subst hi
      simp only [moveQuestion]
      rw [if_pos]
      exact Or.inl (by norm_num)
    · have hdif : (if Direction.down = Direction.up then (index : ℤ) - 1 else (index : ℤ) + 1) =
          (index : ℤ) + 1 := if_neg (by decide)
      simp only [moveQuestion, hdif]
      rw [if_pos]
      exact Or.inr (by omega)
  · intro h1 h2
    cases dir with
    | up =>
        have hpos : 0 < index := Nat.pos_of_ne_zero fun h => h1 ⟨rfl, h⟩
        simp only [moveQuestion, reduceIte]
        rw [if_neg (by omega)]
        have ht : ((index : ℤ) - 1).toNat = index - 1 := by omega
        have hb : index - 1 < qs.length := by omega
        rw [ht, List.get?_eq_get hidx, List.get?_eq_get hb]
        exact reindex_contiguous _
    | down =>
        have hlt : index + 1 < qs.length := by
          rcases Nat.lt_or_ge (index + 1) qs.length with h | h
          · exact h
          · exact absurd ⟨rfl, Nat.le_antisymm (by omega) h⟩ h2
        have hdif : (if Direction.down = Direction.up then (index : ℤ) - 1 else (index : ℤ) + 1) =
            (index : ℤ) + 1 := if_neg (by decide)
        simp only [moveQuestion, hdif]
        rw [if_neg (by omega)]
        have ht : ((index : ℤ) + 1).toNat = index + 1 := by omega
        rw [ht, List.get?_eq_get hidx, List.get?_eq_get hlt]
        exact reindex_contiguous _

/-- Witness for `reorder_contiguous_order_index` on a three-question list with
scrambled `order_index` values, removing and moving at position 1. -/
theorem reorder_contiguous_order_index_witness :
    1 < scrambledQuestions.length ∧
    (removeQuestion scrambledQuestions 1).map Question.order_index =
      List.range (removeQuestion scrambledQuestions 1).length ∧
    (moveQuestion scrambledQuestions 1 Direction.down).map Question.order_index =
      List.range (moveQuestion scrambledQuestions 1 Direction.down).length :=
  ⟨by decide,
   (reorder_contiguous_order_index scrambledQuestions 1 Direction.down (by decide)).2.1
     (by decide),
   (reorder_contiguous_order_index scrambledQuestions 1 Direction.down (by decide)).2.2.2
     (by decide) (by decide)⟩

/-- Claim C9: the create-flow and edit-flow `updateOption` differ — at a state
where `correct_answer` equals the edited option text, the create flow leaves
`correct_answer` unchanged while the edit flow migrates it to the new text. -/
theorem updateOption_flows_differ :
    updateOptionCreate [⟨"q1", "z", "t", ["A", "B"], "A", 0⟩] 0 0 "Z" =
      [⟨"q1", "z", "t", ["Z", "B"], "A", 0⟩] ∧
    updateOptionEdit [⟨"q1", "z", "t", ["A", "B"], "A", 0⟩] 0 0 "Z" =
      [⟨"q1", "z", "t", ["Z", "B"], "Z", 0⟩] ∧
    updateOptionCreate [⟨"q1", "z", "t", ["A", "B"], "A", 0⟩] 0 0 "Z" ≠
      updateOptionEdit [⟨"q1", "z", "t", ["A", "B"], "A", 0⟩] 0 0 "Z" := by
  decide

/-- Claim C10: in the edit flow, removing a question whose id is not a
client-generated `temp-` id immediately issues the delete of that row to the
store — applying the emitted effects removes the row from any store state,
independently of any later save. -/
theorem removeQuestionEdit_deletes_immediately (qs : List Question) (index : Nat) (q : Question)
    (h1 : qs.length ≠ 1) (h2 : qs.get? index = some q)
    (h3 : jsStartsWith q.id "temp-" = false) :
    (removeQuestionEdit qs index).2 = [DbEffect.deleteQuestionById q.id] ∧
    ∀ store : List Question,
      applyEffects store (removeQuestionEdit qs index).2 =
        store.filter fun r => r.id ≠ q.id := by
  unfold removeQuestionEdit
  rw [if_neg h1, h2]
  simp [h3, applyEffects]

/-- Witness for `removeQuestionEdit_deletes_immediately` on a persisted
question with store id `real-1`. -/
theorem removeQuestionEdit_deletes_immediately_witness :
    persistedQuestions.length ≠ 1 ∧
    persistedQuestions.get? 0 = some ⟨"real-1", "z", "Q1", ["A", "B"], "A", 0⟩ ∧
    jsStartsWith "real-1" "temp-" = false ∧
    (removeQuestionEdit persistedQuestions 0).2 = [DbEffect.deleteQuestionById "real-1"] ∧
    applyEffects persistedQuestions (removeQuestionEdit persistedQuestions 0).2 =
      persistedQuestions.filter fun r => r.id ≠ "real-1" :=
  ⟨by decide, by decide, by decide,
   (removeQuestionEdit_deletes_immediately persistedQuestions 0
     ⟨"real-1", "z", "Q1", ["A", "B"], "A", 0⟩ (by decide) (by decide) (by decide)).1,
   (removeQuestionEdit_deletes_immediately persistedQuestions 0
     ⟨"real-1", "z", "Q1", ["A", "B"], "A", 0⟩ (by decide) (by decide) (by decide)).2
     persistedQuestions⟩

end Quizzpp
